import Mathlib

/-!
# Verification of the `mseld/http-backoff` retrying HTTP client

Shallow embedding of the Go sources `backoff/backoff.go`, `backoff/option.go`
and the client-constructor file, together with the parts of the dependency
`github.com/cenkalti/backoff/v4` (the exponential back-off strategy, the
`WithMaxRetries` wrapper and the `RetryNotifyWithData` loop) that the client's
`Execute` method is built on.

Modelling conventions:
* Go `time.Duration` values are integers of nanoseconds (`ℤ`); the
  exponential back-off's current interval is a rational (`ℚ`) because the
  library multiplies durations by a `float64` multiplier — on the concrete
  values appearing below (powers of 1.5 applied to 500ms) `float64`
  arithmetic is exact, so `ℚ` agrees with the Go computation.
* Randomized jitter is ignored (the mid-point of the randomization interval
  is used), as the specification's scheduler property is stated
  "ignoring jitter".
* The transport (`http.Client.Do`), which is an external collaborator, is a
  parameter `Env : HttpClient → Nat → Outcome` giving the outcome of each
  attempt performed through a given client instance; wall-clock time advances
  only at the inter-attempt sleeps (attempt durations are not modelled).
* Observability hooks are modelled observationally: every hook call the loop
  performs is recorded as a `HookEvent` carrying the arguments the Go code
  passes, instead of invoking a function value.
-/

/-! ## Retry classifier (`backoff.go`) -/

/-- Definition `RetryableSet` from `backoff.go`: the 4xx status codes that are
retryable — 408 Request Timeout, 425 Too Early, 429 Too Many Requests
(`http.StatusRequestTimeout`, `http.StatusTooEarly`,
`http.StatusTooManyRequests`). -/
def RetryableSet : List Nat := [408, 425, 429]

/-- Base Go error values that can reach the retry loop. `statusCodeRetryable`
and `unexpectedStatusCode` are the two `fmt.Errorf` results of
`ResponseRetryPolicy`; `bodyReadError` is an `io.ReadAll` failure;
`deadlineExceeded` is `context.DeadlineExceeded`; `oauthRetrieveError` is an
`oauth2.RetrieveError`. -/
inductive GoError where
  | deadlineExceeded
  | oauthRetrieveError
  | statusCodeRetryable (status : String)
  | unexpectedStatusCode (status : String)
  | bodyReadError
  | otherError (msg : String)
deriving DecidableEq, Repr

/-- Definition `ErrorRetryPolicy` from `backoff.go`: a transport error is retryable iff
it is `context.DeadlineExceeded` or an `oauth2.RetrieveError`. -/
def ErrorRetryPolicy (err : GoError) : Bool :=
  match err with
  | .deadlineExceeded => true
  | .oauthRetrieveError => true
  | _ => false

/-- An `*http.Response` as far as the retry engine inspects it: status line,
status code, body contents, and whether draining the body with `io.ReadAll`
succeeds (the latter models the behaviour of the external body stream). -/
structure HttpResp where
  status : String
  statusCode : Nat
  body : String
  bodyReadOk : Bool
deriving DecidableEq, Repr

/-- Definition `ResponseRetryPolicy` from `backoff.go`: returns the (non-nil) error when
the response is classified retryable — status code in `RetryableSet`, or
status code `>= 500` other than 501 (`http.StatusNotImplemented`) — and
`none` (nil) when the response is terminal. -/
def ResponseRetryPolicy (resp : HttpResp) : Option GoError :=
  if resp.statusCode ∈ RetryableSet then
    some (.statusCodeRetryable resp.status)
  else if 500 ≤ resp.statusCode ∧ resp.statusCode ≠ 501 then
    some (.unexpectedStatusCode resp.status)
  else
    none

/-- The classification the specification claims (C1), stated in its words:
retryable iff the status code is in `{408, 425, 429}` or in `[500, 600)`
excluding 501. Used only to compare against `ResponseRetryPolicy`. -/
def claimRetryableCode (code : Nat) : Bool :=
  (code = 408 || code = 425 || code = 429) ||
    (decide (500 ≤ code) && decide (code < 600) && decide (code ≠ 501))

/-! ## Configuration and options (`option.go`, constants of `backoff.go`) -/

/-- Package constants of `backoff.go` (durations in nanoseconds). -/
def DefaultMaxRetry : Nat := 0

def DefaultInitialInterval : ℤ := 100 * 1000000

def DefaultMultiplier : ℚ := 3 / 2

def DefaultMaxInterval : ℤ := 5 * 1000000000

def DefaultMaxElapsedTime : ℤ := 30 * 60 * 1000000000

/-- Opaque handle for an `*http.Client` instance; distinct handles are
distinct client objects. -/
structure HttpClient where
  id : Nat
deriving DecidableEq, Repr

/-- The process-wide `http.DefaultClient`. -/
def httpDefaultClient : HttpClient := ⟨0⟩

/-- Definition `NewDefaultClient` from the client-constructor file: returns a fresh
`&http.Client{}`, a client object distinct from `http.DefaultClient`. -/
def NewDefaultClient : HttpClient := ⟨1⟩

/-- The `config` struct of `option.go`. The three hook function fields are
not carried here: hook calls are modelled as trace events of the execution
loop (see `HookEvent`), which is the only way the loop uses them. -/
structure Config where
  service : String
  maxRetry : Nat
  initialInterval : ℤ
  maxInterval : ℤ
  multiplier : ℚ
  timeout : Option ℤ
  client : HttpClient
deriving DecidableEq, Repr

/-- A functional option (`Option` interface of `option.go`; each
`optionFunc` mutates the config). -/
def GoOption := Config → Config

/-- Definition `WithClient` from `option.go`: sets the HTTP client in `config`. -/
def WithClient (client : HttpClient) : GoOption :=
  fun c => { c with client := client }

/-- Definition `WithService` from `option.go`. -/
def WithService (service : String) : GoOption :=
  fun c => { c with service := service }

/-- Definition `WithTimeout` from `option.go`. -/
def WithTimeout (timeout : ℤ) : GoOption :=
  fun c => { c with timeout := some timeout }

/-- Definition `WithMaxRetry` from `option.go`. -/
def WithMaxRetry (m : Nat) : GoOption :=
  fun c => { c with maxRetry := m }

/-- Definition `WithInitialInterval` from `option.go`. -/
def WithInitialInterval (min : ℤ) : GoOption :=
  fun c => { c with initialInterval := min }

/-- Definition `WithMaxInterval` from `option.go`. -/
def WithMaxInterval (max : ℤ) : GoOption :=
  fun c => { c with maxInterval := max }

/-- Definition `WithMultiplier` from `option.go`. -/
def WithMultiplier (multiplier : ℚ) : GoOption :=
  fun c => { c with multiplier := multiplier }

/-! ## The cenkalti/backoff/v4 strategy (dependency of `backoff.go`) -/

/-- Parameters of `backoff.ExponentialBackOff` from the dependency
`github.com/cenkalti/backoff/v4` (durations in nanoseconds). -/
structure ExponentialBackOff where
  initialInterval : ℚ
  randomizationFactor : ℚ
  multiplier : ℚ
  maxInterval : ℚ
  maxElapsedTime : ℚ
deriving DecidableEq, Repr

/-- Definition `backoff.NewExponentialBackOff()` from cenkalti/backoff/v4: the library
defaults — initial interval 500ms, randomization factor 0.5, multiplier 1.5,
max interval 60s, max elapsed time 15 minutes. -/
def NewExponentialBackOff : ExponentialBackOff :=
  { initialInterval := 500 * 1000000
    randomizationFactor := 1 / 2
    multiplier := 3 / 2
    maxInterval := 60 * 1000000000
    maxElapsedTime := 15 * 60 * 1000000000 }

/-- The mutable state of the strategy object the client stores: the
exponential parameters, the `WithMaxRetries` wrapper when present
(`maxTries`/`numTries` of cenkalti's `backOffTries`), the current interval,
and the elapsed time since the last `Reset` (Go measures it from `startTime`
with the wall clock; here it advances at sleeps). -/
structure BackOffState where
  params : ExponentialBackOff
  maxTries : Option Nat
  numTries : Nat
  currentInterval : ℚ
  elapsed : ℚ
deriving DecidableEq, Repr

/-- Definition `Reset` of the strategy: `backOffTries.Reset` zeroes `numTries` and
delegates to `ExponentialBackOff.Reset`, which restores `currentInterval` to
`InitialInterval` and restarts the elapsed-time clock. -/
def BackOffState.reset (b : BackOffState) : BackOffState :=
  { b with numTries := 0, currentInterval := b.params.initialInterval, elapsed := 0 }

/-- Definition `ExponentialBackOff.NextBackOff` from cenkalti/backoff/v4, jitter
ignored: the next wait is the current interval; the current interval is then
multiplied by the multiplier (capped at `MaxInterval` exactly as
`incrementCurrentInterval` does); `none` models the `Stop` sentinel returned
when `elapsed + next` exceeds `MaxElapsedTime`. -/
def expNextBackOff (b : BackOffState) : Option ℚ × BackOffState :=
  let next := b.currentInterval
  let b' := { b with
    currentInterval :=
      if b.params.maxInterval / b.params.multiplier ≤ b.currentInterval then
        b.params.maxInterval
      else
        b.currentInterval * b.params.multiplier }
  if b.params.maxElapsedTime ≠ 0 ∧ b.params.maxElapsedTime < b.elapsed + next then
    (none, b')
  else
    (some next, b')

/-- Definition `NextBackOff` of the strategy object: `backOffTries.NextBackOff` from
cenkalti/backoff/v4 when the `WithMaxRetries` wrapper is present (returns
`Stop` once `numTries` reaches `maxTries`, otherwise increments `numTries`
and delegates), else the bare exponential `NextBackOff`. -/
def nextBackOff (b : BackOffState) : Option ℚ × BackOffState :=
  match b.maxTries with
  | none => expNextBackOff b
  | some m =>
    if m = 0 then (none, b)
    else if m ≤ b.numTries then (none, b)
    else expNextBackOff { b with numTries := b.numTries + 1 }

/-! ## The client and its constructor (`backoff.go`) -/

/-- The `BackoffClient` struct: the embedded `*http.Client` (field
`Client`), the applied configuration, and the strategy object stored on the
client (one instance per client value). -/
structure BackoffClient where
  Client : HttpClient
  cfg : Config
  backOffStrategy : BackOffState
deriving DecidableEq, Repr

/-- The default `config` literal at the top of `NewBackoffClient`. -/
def defaultConfig : Config :=
  { service := "http-client"
    maxRetry := DefaultMaxRetry
    initialInterval := DefaultInitialInterval
    maxInterval := DefaultMaxInterval
    multiplier := DefaultMultiplier
    timeout := none
    client := NewDefaultClient }

/-- The state of a freshly constructed `backoff.NewExponentialBackOff()`
object (current interval starts at the initial interval, clock just
started). -/
def newExponentialState : BackOffState :=
  { params := NewExponentialBackOff
    maxTries := none
    numTries := 0
    currentInterval := NewExponentialBackOff.initialInterval
    elapsed := 0 }

/-- Definition `NewBackoffClient` from `backoff.go`: applies the options to the default
config, builds `backoff.NewExponentialBackOff()` — wrapped by
`backoff.WithMaxRetries` when `cfg.maxRetry > 0` — and returns the client
with the embedded `Client` field set to `http.DefaultClient`. Note, exactly
as in the source: the strategy is built from the library's defaults, not
from `cfg.initialInterval`/`cfg.multiplier`/`cfg.maxInterval`, and the
embedded client is `http.DefaultClient`, not `cfg.client`. -/
def NewBackoffClient (opts : List GoOption) : BackoffClient :=
  let cfg := opts.foldl (fun c o => o c) defaultConfig
  let backOffStrategy :=
    if cfg.maxRetry > 0 then
      { newExponentialState with maxTries := some cfg.maxRetry }
    else
      newExponentialState
  { cfg := cfg, backOffStrategy := backOffStrategy, Client := httpDefaultClient }

/-! ## The execution loop (`Execute` of `backoff.go` over cenkalti's
`RetryNotifyWithData`) -/

/-- Outcome of one transport call (`c.Do(r)`): a transport error or a
response. -/
inductive Outcome where
  | transportError (e : GoError)
  | response (r : HttpResp)
deriving DecidableEq, Repr

/-- The transport environment: the outcome of the n-th attempt when
performed through a given `*http.Client` instance. -/
def Env := HttpClient → Nat → Outcome

/-- Errors flowing through the retry loop: `retryableError` is a
`*RetryableError{Response, Err}` value; `goError` is any other error value
(returned unwrapped). -/
inductive LoopError where
  | retryableError (resp : Option HttpResp) (err : GoError)
  | goError (e : GoError)
deriving DecidableEq, Repr

/-- Definition `errors.Is(err, &RetryableError{})`: `RetryableError.Is` matches exactly
the `*RetryableError` values (identity of the marker type, no string
matching). -/
def errorsIsRetryableError : LoopError → Bool
  | .retryableError _ _ => true
  | .goError _ => false

/-- The lower-case `execute` method of `backoff.go` (the per-attempt
transport call): on a transport error, wrap it in `*RetryableError` iff
`ErrorRetryPolicy` accepts it; on a response, wrap response and policy error
in `*RetryableError` iff `ResponseRetryPolicy` classifies it retryable,
else return the response. The per-attempt timeout only shapes the context
the transport sees and is absorbed into `Env` (a timeout expiry surfaces as
`Outcome.transportError .deadlineExceeded`). -/
def executeOnce (client : HttpClient) (env : Env) (attempt : Nat) :
    Except LoopError HttpResp :=
  match env client attempt with
  | .transportError e =>
    if ErrorRetryPolicy e then .error (.retryableError none e)
    else .error (.goError e)
  | .response r =>
    match ResponseRetryPolicy r with
    | some e => .error (.retryableError (some r) e)
    | none => .ok r

/-- One observability-hook invocation, with the arguments the Go code passes
(the request value and the measured wall-clock durations are not modelled;
the attempt number and, for `responseLog`, the response's status code are).
`errorLog` is `cfg.ErrorLogHook`, `responseLog` is `cfg.ResponseLogHook`,
`requestLog` is `cfg.RequestLogHook` with the computed wait. -/
inductive HookEvent where
  | errorLog (attempt : Nat) (err : LoopError)
  | responseLog (attempt : Nat) (statusCode : Nat)
  | requestLog (attempt : Nat) (err : LoopError) (next : ℚ)
deriving DecidableEq, Repr

def isResponseLog : HookEvent → Bool
  | .responseLog _ _ => true
  | _ => false

def isErrorLog : HookEvent → Bool
  | .errorLog _ _ => true
  | _ => false

/-- The materialized `Response` struct of `backoff.go` (headers omitted). -/
structure GoResponse where
  status : String
  statusCode : Nat
  body : String
deriving DecidableEq, Repr

/-- Result of the operation closure `f`: success, or an error that is either
wrapped in `backoff.Permanent` (when `errors.Is(err, &RetryableError{})`
fails) or returned as-is. -/
inductive FError where
  | nonPermanent (e : LoopError)
  | permanent (e : LoopError)
deriving DecidableEq, Repr

/-- The operation closure `f` inside `Execute`, for one attempt (the
`attempt++` has already happened): run `execute`; on error fire
`ErrorLogHook` and wrap non-`RetryableError` errors in `backoff.Permanent`;
on success fire `ResponseLogHook`, then drain the body with `io.ReadAll` —
a read failure is returned as a bare error (no hook fires for it and it is
not wrapped in `backoff.Permanent`), otherwise the materialized `Response`
is returned. -/
def fAttempt (client : HttpClient) (env : Env) (attempt : Nat) :
    List HookEvent × Except FError GoResponse :=
  match executeOnce client env attempt with
  | .error err =>
    ([.errorLog attempt err],
      if errorsIsRetryableError err then .error (.nonPermanent err)
      else .error (.permanent err))
  | .ok r =>
    if r.bodyReadOk then
      ([.responseLog attempt r.statusCode], .ok ⟨r.status, r.statusCode, r.body⟩)
    else
      ([.responseLog attempt r.statusCode],
        .error (.nonPermanent (.goError .bodyReadError)))

/-- Definition `backoff.RetryNotifyWithData` (cenkalti/backoff/v4 `doRetryNotify`),
fuel-bounded: run `f`; return its data on success; on a
`backoff.Permanent`-wrapped error return the wrapped error; otherwise ask
the strategy for the next wait — `Stop` returns the last error as-is, else
the `notify` callback (the client's `RequestLogHook`) fires with the current
attempt count and the wait, the loop sleeps (advancing the clock), and
retries. The result is `(trace, attempts, final strategy state, result)`;
`result = none` only when the fuel ran out before the loop returned. -/
def retryLoop (client : HttpClient) (env : Env) (attempt : Nat)
    (b : BackOffState) :
    Nat → List HookEvent × Nat × BackOffState × Option (Except LoopError GoResponse)
  | 0 => ([], attempt, b, none)
  | fuel + 1 =>
    let attempt := attempt + 1
    let (evts, res) := fAttempt client env attempt
    match res with
    | .ok resp => (evts, attempt, b, some (.ok resp))
    | .error (.permanent e) => (evts, attempt, b, some (.error e))
    | .error (.nonPermanent e) =>
      match nextBackOff b with
      | (none, b') => (evts, attempt, b', some (.error e))
      | (some next, b') =>
        let b'' := { b' with elapsed := b'.elapsed + next }
        let (evts', attempt', b''', r) := retryLoop client env attempt b'' fuel
        (evts ++ .requestLog attempt e next :: evts', attempt', b''', r)

deriving instance DecidableEq for Except

/-- Result of one `Execute` call: the client as it is afterwards (its
strategy object having been mutated in place by the loop), the hook trace,
the number of transport attempts performed, and the returned value. -/
structure ExecResult where
  client : BackoffClient
  trace : List HookEvent
  attempts : Nat
  result : Option (Except LoopError GoResponse)
deriving DecidableEq, Repr

/-- Definition `Execute` from `backoff.go`: runs `backoff.RetryNotifyWithData(f,
c.backOffStrategy, notify)` with a fresh attempt counter. The combinator
begins with `b.Reset()` on the client's strategy object and mutates that
same object as it goes; the state it leaves behind stays on the client. -/
def Execute (c : BackoffClient) (env : Env) (fuel : Nat) : ExecResult :=
  let (evts, attempts, b', r) :=
    retryLoop c.Client env 0 c.backOffStrategy.reset fuel
  ⟨{ c with backOffStrategy := b' }, evts, attempts, r⟩

/-! ## Concrete transport environments used as test inputs -/

/-- A 503 Service Unavailable response with a readable (empty) body. -/
def resp503 : HttpResp := ⟨"503 Service Unavailable", 503, "", true⟩

/-- An endpoint whose every attempt yields a 503 response. -/
def env503 : Env := fun _ _ => .response resp503

/-- A 600 response: syntactically valid HTTP status line, outside every
RFC class; Go's client delivers it with `StatusCode = 600`. -/
def resp600 : HttpResp := ⟨"600 Unknown", 600, "", true⟩

/-- A 200 response whose body stream fails while being drained
(`io.ReadAll` returns an error). -/
def resp200bad : HttpResp := ⟨"200 OK", 200, "", false⟩

/-- An endpoint whose every attempt yields a 200 response with a failing
body stream. -/
def env200bad : Env := fun _ _ => .response resp200bad

/-- A transport environment under which the client object actually used is
observable: requests performed through `http.DefaultClient` get body
"default", requests through any other client get body "custom". -/
def envClientSensitive : Env := fun cl _ =>
  .response ⟨"200 OK", 200, if cl = httpDefaultClient then "default" else "custom", true⟩

/-! ## Two `Execute` invocations interleaved on one client

The strategy object `backOffStrategy` is a field of `BackoffClient`; every
`Execute` call passes that same object to `backoff.RetryNotifyWithData`,
which resets and then mutates it. Two in-flight `Execute` calls on the same
client therefore read and write one shared `BackOffState`. The small-step
machine below makes one loop iteration of one invocation per step, against
the shared state, so that interleavings of two concurrent invocations can
be examined. -/

/-- The invocation-local part of one in-flight `Execute` call: its `attempt`
counter (a local variable of `Execute`), whether the combinator's initial
`b.Reset()` has run, and the returned value once the loop has finished. -/
structure InvocationState where
  attempt : Nat
  started : Bool
  result : Option (Except LoopError GoResponse)
deriving DecidableEq, Repr

/-- An `Execute` call that has not run yet. -/
def freshInvocation : InvocationState := ⟨0, false, none⟩

/-- One step of one in-flight `Execute` invocation against the shared
strategy state: first the entry `b.Reset()`, then one iteration of
`retryLoop` per step (hook events are not tracked here). -/
def invStep (client : HttpClient) (env : Env) (inv : InvocationState)
    (b : BackOffState) : InvocationState × BackOffState :=
  if inv.result.isSome then (inv, b)
  else if !inv.started then ({ inv with started := true }, b.reset)
  else
    let attempt := inv.attempt + 1
    match (fAttempt client env attempt).2 with
    | .ok resp => ({ inv with attempt := attempt, result := some (.ok resp) }, b)
    | .error (.permanent e) =>
      ({ inv with attempt := attempt, result := some (.error e) }, b)
    | .error (.nonPermanent e) =>
      match nextBackOff b with
      | (none, b') => ({ inv with attempt := attempt, result := some (.error e) }, b')
      | (some next, b') =>
        ({ inv with attempt := attempt }, { b' with elapsed := b'.elapsed + next })

/-- Run two interleaved `Execute` invocations (A and B) on one client's
shared strategy state; the schedule says which invocation performs the next
step (`true` = A, `false` = B). -/
def runShared (client : HttpClient) (env : Env) :
    List Bool → InvocationState × InvocationState × BackOffState →
    InvocationState × InvocationState × BackOffState
  | [], s => s
  | pick :: rest, (invA, invB, b) =>
    if pick then
      let (invA', b') := invStep client env invA b
      runShared client env rest (invA', invB, b')
    else
      let (invB', b') := invStep client env invB b
      runShared client env rest (invA, invB', b')

/-! ## The request builder (second half of `backoff.go`)

Collaborator semantics embedded here: `url.Values` is a `map[string][]string`
— a nil map is distinguished from an empty one, and writing to a nil map is
a runtime panic; `url.Values.Encode` sorts the keys and percent-encodes
keys and values (`url.QueryEscape`); `url.Parse` splits the query string off
at the first question mark (fragments are not modelled, and parse failures,
possible in Go only for URLs with control characters or malformed schemes,
are not modelled — `urlParse` always succeeds). Go map iteration order is
unspecified; map-valued inputs are passed as association lists and iterated
in list order, which fixes one admissible order. -/

/-- An initialized `url.Values`: keys in insertion order, each with its list
of values. -/
abbrev Values := List (String × List String)

/-- Semantics of `url.Values.Add` on an initialized (non-nil) map: append
the value to the key's slice. -/
def valuesAdd : Values → String → String → Values
  | [], key, value => [(key, [value])]
  | (k, vs) :: rest, key, value =>
    if k = key then (k, vs ++ [value]) :: rest
    else (k, vs) :: valuesAdd rest key value

/-- Semantics of the map assignment `v[key] = vals` on an initialized map
(used by `RequestBuilder.Query` when merging). -/
def valuesSet (v : Values) (key : String) (vals : List String) : Values :=
  if v.any (fun kv => kv.1 == key) then
    v.map (fun kv => if kv.1 == key then (key, vals) else kv)
  else v ++ [(key, vals)]

/-- Upper-case hex digit, as `"0123456789ABCDEF"[n]` in Go's escape. -/
def upperHexDigit (n : Nat) : Char :=
  if n < 10 then Char.ofNat (48 + n) else Char.ofNat (55 + n)

/-- Bytes `url.QueryEscape` leaves unescaped: ASCII letters, digits, and
the four unreserved marks dash, underscore, dot, tilde. -/
def isUnescapedQueryByte (b : Nat) : Bool :=
  (decide (65 ≤ b) && decide (b ≤ 90)) || (decide (97 ≤ b) && decide (b ≤ 122)) ||
    (decide (48 ≤ b) && decide (b ≤ 57)) || b == 45 || b == 95 || b == 46 || b == 126

/-- UTF-8 encoding of one character as byte values (Go strings are byte
strings; escaping operates bytewise). -/
def utf8Bytes (c : Char) : List Nat :=
  let n := c.toNat
  if n < 128 then [n]
  else if n < 2048 then [192 + n / 64, 128 + n % 64]
  else if n < 65536 then [224 + n / 4096, 128 + (n / 64) % 64, 128 + n % 64]
  else [240 + n / 262144, 128 + (n / 4096) % 64, 128 + (n / 64) % 64, 128 + n % 64]

/-- Byte sequence of a string. -/
def stringBytes (s : String) : List Nat :=
  s.data.foldr (fun c acc => utf8Bytes c ++ acc) []

/-- Bytewise body of `url.QueryEscape`: unreserved bytes kept, space
becomes a plus, every other byte percent-encoded in upper-case hex. -/
def queryEscapeBytes : List Nat → String
  | [] => ""
  | b :: rest =>
    (if isUnescapedQueryByte b then String.singleton (Char.ofNat b)
     else if b == 32 then "+"
     else "%" ++ String.singleton (upperHexDigit (b / 16)) ++
       String.singleton (upperHexDigit (b % 16))) ++ queryEscapeBytes rest

/-- Semantics of `url.QueryEscape`. -/
def queryEscape (s : String) : String := queryEscapeBytes (stringBytes s)

/-- Insertion into a sorted list of strings (for `sort.Strings`). -/
def insertString (s : String) : List String → List String
  | [] => [s]
  | t :: rest => if t < s then t :: insertString s rest else s :: t :: rest

/-- Semantics of `sort.Strings` on the key list. -/
def sortStrings (l : List String) : List String := l.foldr insertString []

/-- Semantics of `url.Values.Encode`: sort the keys, then emit
`key=value` pairs (both query-escaped) joined by ampersands; a nil or
empty map encodes to the empty string. -/
def valuesEncode (v : Values) : String :=
  let keys := sortStrings (v.map (fun kv => kv.1))
  let parts := keys.foldl (fun acc k =>
    match v.lookup k with
    | none => acc
    | some vs => acc ++ vs.map (fun value => queryEscape k ++ "=" ++ queryEscape value)) []
  String.intercalate "&" parts

/-- Content-type constants of the builder file. -/
def ContentTypeJSON : String := "application/json"

def ContentTypeForm : String := "application/x-www-form-urlencoded"

def ContentTypeText : String := "text/plain"

/-- Canonical header keys (`http.CanonicalHeaderKey` is the identity on
these already-canonical names). -/
def ContentTypeHeader : String := "Content-Type"

def UserAgentHeader : String := "User-Agent"

/-- The parts of a parsed `url.URL` the builder touches: everything before
the query, and the raw query string. -/
structure GoURL where
  beforeQuery : String
  rawQuery : String
deriving DecidableEq, Repr

/-- Splits a character list at the first question mark. -/
def splitAtQuestionMark : List Char → List Char × List Char
  | [] => ([], [])
  | c :: rest =>
    if c = '?' then ([], rest)
    else
      let (a, b) := splitAtQuestionMark rest
      (c :: a, b)

/-- Semantics of `url.Parse` at the fidelity the builder needs: the raw
query is what follows the first question mark (empty when there is none);
parsing always succeeds here (see the section comment). -/
def urlParse (s : String) : Option GoURL :=
  some
    ⟨String.mk (splitAtQuestionMark s.data).1, String.mk (splitAtQuestionMark s.data).2⟩

/-- Semantics of the map assignment `headers[key] = value` on the
builder's (initialized) header map. -/
def stringMapSet (m : List (String × String)) (key value : String) :
    List (String × String) :=
  if m.any (fun kv => kv.1 == key) then
    m.map (fun kv => if kv.1 == key then (key, value) else kv)
  else m ++ [(key, value)]

/-- Go runtime panics the builder can hit. -/
inductive GoPanic where
  | nilMapAssignment
deriving DecidableEq, Repr

/-- The `RequestBuilder` struct: `form` is an `Option` because
`NewRequestBuilder` initializes `query` and `headers` but leaves `form` as
a nil map (`none`); `body` holds the contents of the `io.Reader`. -/
structure RequestBuilder where
  method : String
  url : String
  query : Values
  headers : List (String × String)
  form : Option Values
  body : Option String
deriving DecidableEq, Repr

/-- Definition `NewRequestBuilder` from the builder file: `query` and
`headers` initialized empty, every other field left at its zero value — in
particular `form` stays a nil map. -/
def NewRequestBuilder : RequestBuilder :=
  { method := "", url := "", query := [], headers := [], form := none, body := none }

/-- Definition `Method` from the builder file. -/
def RequestBuilder.Method (rb : RequestBuilder) (method : String) : RequestBuilder :=
  { rb with method := method }

/-- Definition `URL` from the builder file. -/
def RequestBuilder.URL (rb : RequestBuilder) (url : String) : RequestBuilder :=
  { rb with url := url }

/-- Definition `QueryParam` from the builder file: `rb.query.Add(key, value)`
(the query map is initialized, so this never panics). -/
def RequestBuilder.QueryParam (rb : RequestBuilder) (key value : String) :
    RequestBuilder :=
  { rb with query := valuesAdd rb.query key value }

/-- Definition `Query` from the builder file: empty input is a no-op; an
empty accumulated query is replaced wholesale; otherwise each input key's
slice overwrites the accumulated one. -/
def RequestBuilder.Query (rb : RequestBuilder) (query : Values) : RequestBuilder :=
  if query.length = 0 then rb
  else if rb.query.length = 0 then { rb with query := query }
  else { rb with query := query.foldl (fun q kv => valuesSet q kv.1 kv.2) rb.query }

/-- Definition `Header` from the builder file. -/
def RequestBuilder.Header (rb : RequestBuilder) (key value : String) : RequestBuilder :=
  { rb with headers := stringMapSet rb.headers key value }

/-- Definition `Headers` from the builder file (map iterated in list order). -/
def RequestBuilder.Headers (rb : RequestBuilder) (headers : List (String × String)) :
    RequestBuilder :=
  { rb with headers := headers.foldl (fun m kv => stringMapSet m kv.1 kv.2) rb.headers }

/-- Definition `ContentType` from the builder file. -/
def RequestBuilder.ContentType (rb : RequestBuilder) (contentType : String) :
    RequestBuilder :=
  { rb with headers := stringMapSet rb.headers ContentTypeHeader contentType }

/-- Definition `BodyString` from the builder file. -/
def RequestBuilder.BodyString (rb : RequestBuilder) (body : String) : RequestBuilder :=
  { rb with body := some body }

/-- Definition `BodyJSON` from the builder file. `json.Marshal` is external;
its outcome for the given value is the `marshalled` parameter (`none` models
a marshalling error). On error the builder is returned unchanged — no field
is touched and no error is recorded anywhere. -/
def RequestBuilder.BodyJSON (rb : RequestBuilder) (marshalled : Option String) :
    RequestBuilder :=
  match marshalled with
  | none => rb
  | some buffer => { rb with body := some buffer }

/-- Definition `PostForm` from the builder file: `rb.form.Add(key, value)` for
each entry of the input map. `NewRequestBuilder` leaves `form` nil, and
`url.Values.Add` assigns into the map, so the first entry added to a
builder whose `form` is still nil is a runtime panic
("assignment to entry in nil map"). -/
def RequestBuilder.PostForm (rb : RequestBuilder) :
    List (String × String) → Except GoPanic RequestBuilder
  | [] => .ok rb
  | (key, value) :: rest =>
    match rb.form with
    | none => .error .nilMapAssignment
    | some v => RequestBuilder.PostForm { rb with form := some (valuesAdd v key value) } rest

/-- Build errors (`url.Parse` or `http.NewRequestWithContext` failing);
unreachable at the fidelity modelled here but kept for the code's shape. -/
inductive BuildError where
  | urlParseError
  | newRequestError
deriving DecidableEq, Repr

/-- The built `*http.Request` as far as these claims inspect it. -/
structure GoRequest where
  method : String
  url : GoURL
  headers : List (String × String)
  body : Option String
deriving DecidableEq, Repr

/-- Definition `Build` from the builder file: parse the URL, overwrite its raw
query with the encoding of the accumulated query values, then — when form
data is present — force method POST, the form content type, and the encoded
form as body; finally `http.NewRequestWithContext` (an empty method becomes
GET) and the headers are set on the request. -/
def RequestBuilder.Build (rb : RequestBuilder) : Except BuildError GoRequest :=
  match urlParse rb.url with
  | none => .error .urlParseError
  | some u0 =>
    let u : GoURL := { u0 with rawQuery := valuesEncode rb.query }
    let formActive : Bool := match rb.form with
      | some f => f.length > 0
      | none => false
    let method := if formActive then "POST" else rb.method
    let headers :=
      if formActive then stringMapSet rb.headers ContentTypeHeader ContentTypeForm
      else rb.headers
    let body := if formActive then some (valuesEncode (rb.form.getD [])) else rb.body
    let method := if method = "" then "GET" else method
    .ok { method := method, url := u, headers := headers, body := body }

/-! ## Claim theorems

Batteries marks the rational-number arithmetic irreducible for the
elaborator; evaluation of concrete loop runs needs it unfolded. -/

attribute [local semireducible] Rat.mul Rat.inv Rat.add Rat.sub

/-- Claim C1, counterexample. The claim bounds the retryable 5xx range at
600, but `ResponseRetryPolicy` has no upper bound: a response with status
code 600 (syntactically valid for Go's HTTP client) is classified
retryable by the code, while the claim's classification
(`claimRetryableCode`) calls it permanent. -/
theorem C1_counterexample :
    (ResponseRetryPolicy resp600).isSome = true ∧ claimRetryableCode 600 = false := by
  decide

/-- Claim C1, amended. The retry classifier classifies a response retryable
iff its status code is in `{408, 425, 429}` or is at least 500 and not 501
— with no upper bound at 600; every other status code is permanent. -/
theorem C1_amended (r : HttpResp) :
    (ResponseRetryPolicy r).isSome = true ↔
      r.statusCode = 408 ∨ r.statusCode = 425 ∨ r.statusCode = 429 ∨
        (500 ≤ r.statusCode ∧ r.statusCode ≠ 501) := by
  unfold ResponseRetryPolicy RetryableSet
  split_ifs with h1 h2
  · simp_all
    omega
  · simp_all
  · simp_all

/-- Claim C2 (code bug): the scheduler built by `NewBackoffClient` does not
use the configured values. With `WithInitialInterval 1s`, `WithMultiplier
2`, `WithMaxInterval 10s` the config carries those values, yet the strategy
is built from `backoff.NewExponentialBackOff()`'s library defaults (500ms,
1.5, 60s, 15min) — the package's own defaults (100ms, 1.5, 5s) are not used
either — and the scheduled waits observed in the hook trace are 500ms then
750ms (500ms × 1.5), not 1s then 2s. -/
theorem C2_scheduler_ignores_config :
    (NewBackoffClient []).backOffStrategy.params.initialInterval = 500000000 ∧
    DefaultInitialInterval = 100000000 ∧
    (NewBackoffClient [WithInitialInterval 1000000000, WithMultiplier 2,
        WithMaxInterval 10000000000]).cfg.initialInterval = 1000000000 ∧
    (NewBackoffClient [WithInitialInterval 1000000000, WithMultiplier 2,
        WithMaxInterval 10000000000]).cfg.multiplier = 2 ∧
    (NewBackoffClient [WithInitialInterval 1000000000, WithMultiplier 2,
        WithMaxInterval 10000000000]).cfg.maxInterval = 10000000000 ∧
    (NewBackoffClient [WithInitialInterval 1000000000, WithMultiplier 2,
        WithMaxInterval 10000000000]).backOffStrategy.params =
      { initialInterval := 500000000, randomizationFactor := 1/2, multiplier := 3/2,
        maxInterval := 60000000000, maxElapsedTime := 900000000000 } ∧
    (Execute (NewBackoffClient [WithInitialInterval 1000000000, WithMultiplier 2,
        WithMaxInterval 10000000000]) env503 2).trace =
      [.errorLog 1 (.retryableError (some resp503)
          (.unexpectedStatusCode "503 Service Unavailable")),
       .requestLog 1 (.retryableError (some resp503)
          (.unexpectedStatusCode "503 Service Unavailable")) 500000000,
       .errorLog 2 (.retryableError (some resp503)
          (.unexpectedStatusCode "503 Service Unavailable")),
       .requestLog 2 (.retryableError (some resp503)
          (.unexpectedStatusCode "503 Service Unavailable")) 750000000] := by
  decide

/-- Claim C3. With `maxRetry = 3`, executing against an endpoint whose every
attempt yields a 503 performs exactly 4 transport attempts (1 initial + 3
retries) and returns, as terminal error, the `*RetryableError` wrapping the
last 503 response. -/
theorem C3_always503_four_attempts :
    (Execute (NewBackoffClient [WithMaxRetry 3]) env503 10).attempts = 4 ∧
    (Execute (NewBackoffClient [WithMaxRetry 3]) env503 10).result =
      some (.error (.retryableError (some resp503)
        (.unexpectedStatusCode "503 Service Unavailable"))) := by
  decide

/-- Claim C4 (code bug): `WithClient` stores the supplied client in the
config, but `NewBackoffClient` embeds `http.DefaultClient` and `execute`
calls `c.Do` on that embedded client, so every transport call goes through
the process-wide default client. Under a transport environment in which the
two clients respond differently, `Execute` observes the default client's
response. -/
theorem C4_withClient_ignored :
    (NewBackoffClient [WithClient ⟨2⟩]).cfg.client = ⟨2⟩ ∧
    (NewBackoffClient [WithClient ⟨2⟩]).Client = httpDefaultClient ∧
    httpDefaultClient ≠ (⟨2⟩ : HttpClient) ∧
    (Execute (NewBackoffClient [WithClient ⟨2⟩]) envClientSensitive 1).result =
      some (.ok ⟨"200 OK", 200, "default"⟩) := by
  decide

/-- Claim C5, counterexample. The backoff state is one shared object on the
client, not loop-local: with `maxRetry = 1` against an always-503 endpoint,
invocation A alone performs 2 attempts (schedule with A steps only), but
when invocation B merely enters the combinator (which resets the shared
state) between A's attempts, A performs 3 attempts — B's reset handed A's
budget back, so the state is shared between concurrent `Execute` calls. -/
theorem C5_counterexample :
    (runShared httpDefaultClient env503 [true, true, false, true, true]
        (freshInvocation, freshInvocation,
          (NewBackoffClient [WithMaxRetry 1]).backOffStrategy)).1.attempt = 3 ∧
    ((runShared httpDefaultClient env503 [true, true, false, true, true]
        (freshInvocation, freshInvocation,
          (NewBackoffClient [WithMaxRetry 1]).backOffStrategy)).1.result).isSome = true ∧
    (runShared httpDefaultClient env503 [true, true, true, true]
        (freshInvocation, freshInvocation,
          (NewBackoffClient [WithMaxRetry 1]).backOffStrategy)).1.attempt = 2 ∧
    ((runShared httpDefaultClient env503 [true, true, true, true]
        (freshInvocation, freshInvocation,
          (NewBackoffClient [WithMaxRetry 1]).backOffStrategy)).1.result).isSome = true := by
  decide

/-- Claim C5, amended. Each `Execute` invocation resets the client's shared
strategy object at its start, so in the absence of interleaving the
invocation's behaviour (result, trace, attempts, and the state left behind)
depends only on the strategy's parameters and retry bound — any state left
in the object by earlier calls is erased by the reset. -/
theorem C5_amended (c : BackoffClient) (b : BackOffState) (env : Env) (fuel : Nat)
    (hp : b.params = c.backOffStrategy.params)
    (ht : b.maxTries = c.backOffStrategy.maxTries) :
    Execute { c with backOffStrategy := b } env fuel = Execute c env fuel := by
  have hreset : b.reset = c.backOffStrategy.reset := by
    unfold BackOffState.reset
    rw [hp, ht]
  unfold Execute
  rw [hreset]

/-- Claim C5, witness for the amended theorem at a concrete dirty state. -/
theorem C5_amended_witness :
    (let c := NewBackoffClient [WithMaxRetry 1]
     let b : BackOffState := { c.backOffStrategy with numTries := 7, elapsed := 123 }
     b.params = c.backOffStrategy.params ∧ b.maxTries = c.backOffStrategy.maxTries ∧
       Execute { c with backOffStrategy := b } env503 4 = Execute c env503 4) :=
  ⟨rfl, rfl, C5_amended _ _ _ _ rfl rfl⟩

/-- Claim C6, counterexample. With `maxRetry = 1` against an always-503
endpoint, both attempts produce an HTTP response, yet `ResponseLogHook`
fires zero times (the claim predicts twice): retryable responses travel the
error path and fire `ErrorLogHook` instead. -/
theorem C6_counterexample :
    env503 httpDefaultClient 1 = .response resp503 ∧
    env503 httpDefaultClient 2 = .response resp503 ∧
    (Execute (NewBackoffClient [WithMaxRetry 1]) env503 5).attempts = 2 ∧
    (Execute (NewBackoffClient [WithMaxRetry 1]) env503 5).trace.countP isResponseLog
      = 0 := by
  decide

/-- Claim C6, amended. For every attempt that produces an HTTP response:
if the response is classified non-retryable, `ResponseLogHook` is invoked
exactly once for that attempt (with the attempt number, before the body is
drained) and `ErrorLogHook` not at all; if it is classified retryable, the
attempt invokes `ErrorLogHook` exactly once and `ResponseLogHook` never. -/
theorem C6_amended (client : HttpClient) (env : Env) (attempt : Nat) (r : HttpResp)
    (h : env client attempt = .response r) :
    (fAttempt client env attempt).1.countP isResponseLog =
      (if ResponseRetryPolicy r = none then 1 else 0) ∧
    (fAttempt client env attempt).1.countP isErrorLog =
      (if ResponseRetryPolicy r = none then 0 else 1) := by
  unfold fAttempt executeOnce
  rw [h]
  cases hrp : ResponseRetryPolicy r with
  | some e =>
    simp [hrp, errorsIsRetryableError, isResponseLog, isErrorLog,
      List.countP_cons, List.countP_nil]
  | none =>
    cases hb : r.bodyReadOk <;>
      simp [hrp, hb, isResponseLog, isErrorLog, List.countP_cons, List.countP_nil]

/-- Claim C6, witness for the amended theorem: one 503 attempt fires
`ErrorLogHook` once and `ResponseLogHook` never. -/
theorem C6_amended_witness :
    env503 httpDefaultClient 1 = .response resp503 ∧
    ((fAttempt httpDefaultClient env503 1).1.countP isResponseLog =
      (if ResponseRetryPolicy resp503 = none then 1 else 0) ∧
    (fAttempt httpDefaultClient env503 1).1.countP isErrorLog =
      (if ResponseRetryPolicy resp503 = none then 0 else 1)) :=
  ⟨rfl, C6_amended httpDefaultClient env503 1 resp503 rfl⟩

/-- Claim C7 (code bug): a body-read failure after a non-retryable 200
response is returned to the retry combinator as a bare error — not wrapped
in `backoff.Permanent` — so the combinator retries it. With `maxRetry = 2`
the loop performs 3 transport attempts (the claim says the first failure is
terminal) before surfacing the read error. -/
theorem C7_body_read_failure_retried :
    (Execute (NewBackoffClient [WithMaxRetry 2]) env200bad 10).attempts = 3 ∧
    (Execute (NewBackoffClient [WithMaxRetry 2]) env200bad 10).result =
      some (.error (.goError .bodyReadError)) := by
  decide

/-- Claim C8 (code bug): `NewRequestBuilder` never initializes the `form`
map, so the first `url.Values.Add` performed by `PostForm` assigns into a
nil map — a runtime panic — instead of producing the form-encoded POST
request the claim describes. -/
theorem C8_postForm_nil_map_panics :
    NewRequestBuilder.PostForm [("a", "1"), ("b", "2")] = .error .nilMapAssignment := by
  decide

/-- Claim C9. When `json.Marshal` fails, `BodyJSON` returns the builder
unchanged — whatever body was previously set remains — and a subsequent
`Build` behaves exactly as if `BodyJSON` had never been called, reporting
no error for the failed encoding. -/
theorem C9_bodyJSON_marshal_error_silent (rb : RequestBuilder) :
    rb.BodyJSON none = rb ∧ (rb.BodyJSON none).Build = rb.Build :=
  ⟨rfl, rfl⟩

/-- Claim C10. `Build` overwrites the parsed URL's raw query with the
encoding of the builder's accumulated query values; in particular, with no
accumulated parameters the built request's query string is empty, whatever
query string the URL string carried. -/
theorem C10_build_overwrites_rawQuery (rb : RequestBuilder) (r : GoRequest)
    (h : rb.Build = .ok r) :
    r.url.rawQuery = valuesEncode rb.query ∧ (rb.query = [] → r.url.rawQuery = "") := by
  unfold RequestBuilder.Build urlParse at h
  simp only [Except.ok.injEq] at h
  subst h
  constructor
  · rfl
  · intro hq
    simp [hq]
    rfl

/-- Claim C10, witness: a URL carrying `?x=1` with no accumulated query
parameters builds to a request whose query string is empty. -/
theorem C10_witness :
    RequestBuilder.Build (NewRequestBuilder.URL "http://example.com/p?x=1") =
      .ok ⟨"GET", ⟨"http://example.com/p", ""⟩, [], none⟩ ∧
    (⟨"GET", ⟨"http://example.com/p", ""⟩, [], none⟩ : GoRequest).url.rawQuery = "" :=
  ⟨by decide,
    (C10_build_overwrites_rawQuery (NewRequestBuilder.URL "http://example.com/p?x=1")
      ⟨"GET", ⟨"http://example.com/p", ""⟩, [], none⟩ (by decide)).2 rfl⟩
